import Mathlib

/-!
Shallow embedding of the `openbankingorgukacco` CLI (src/config.js, src/api.js,
src/index.js): a JavaScript value model, the settings store, the API client with
its HTTP-error classification, and the command dispatcher with its table and
JSON renderers.  Dates and HTTP exchanges are passed in explicitly; `chalk`
colouring is the identity on text; the `ora` spinner produces no retained
output.
-/

namespace OBA

/-- JavaScript numbers as this CLI produces them: integers (epoch milliseconds,
`parseInt` results, `Date.now()`) or `NaN` (a failed `parseInt`). -/
inductive JsNum where
  | int (n : Int)
  | nan
  deriving Repr, DecidableEq

/-- JavaScript values flowing through the CLI: JSON payloads plus `undefined`. -/
inductive JsValue where
  | undefined
  | null
  | bool (b : Bool)
  | num (n : JsNum)
  | str (s : String)
  | arr (elems : List JsValue)
  | obj (fields : List (String × JsValue))
  deriving Repr

/-- JavaScript truthiness of a number: `0` and `NaN` are falsy. -/
def jsNumTruthy : JsNum → Bool
  | .int n => n != 0
  | .nan => false

/-- JavaScript truthiness. -/
def jsTruthy : JsValue → Bool
  | .undefined => false
  | .null => false
  | .bool b => b
  | .num n => jsNumTruthy n
  | .str s => s != ""
  | .arr _ => true
  | .obj _ => true

/-- First binding of a key in a JavaScript object literal. -/
def jsLookup (fields : List (String × JsValue)) (k : String) : Option JsValue :=
  (fields.find? (fun p => p.1 == k)).map Prod.snd

/-- Property access `v[k]` on a non-nullish receiver: objects look the key up,
everything else yields `undefined` (no own properties are modelled on
primitives and arrays, which matches every access the CLI performs). -/
def jsGet (v : JsValue) (k : String) : JsValue :=
  match v with
  | .obj fields => (jsLookup fields k).getD .undefined
  | _ => .undefined

/-- A single-quote character, for building Node error messages. -/
def sq : String := String.singleton (Char.ofNat 39)

/-- The Node `TypeError` message for a property read on `null`/`undefined`. -/
def readErrMsg (kind k : String) : String :=
  "Cannot read properties of " ++ kind ++ " (reading " ++ sq ++ k ++ sq ++ ")"

/-- Plain property access `v.k`: throws a `TypeError` on `null`/`undefined`. -/
def jsGetE (v : JsValue) (k : String) : Except String JsValue :=
  match v with
  | .null => .error (readErrMsg "null" k)
  | .undefined => .error (readErrMsg "undefined" k)
  | v => .ok (jsGet v k)

/-- Optional chaining `v?.k`: `undefined` on a nullish receiver. -/
def jsOptGet (v : JsValue) (k : String) : JsValue :=
  match v with
  | .null => .undefined
  | .undefined => .undefined
  | v => jsGet v k

/-- JavaScript `a || b`. -/
def jsOr (a b : JsValue) : JsValue := if jsTruthy a then a else b

/-- JavaScript `a ?? b`. -/
def jsNullish (a b : JsValue) : JsValue :=
  match a with
  | .null => b
  | .undefined => b
  | a => a

mutual
/-- JavaScript `String(v)` coercion (BMP text only, as in this CLI). -/
def jsToString : JsValue → String
  | .undefined => "undefined"
  | .null => "null"
  | .bool b => cond b "true" "false"
  | .num (.int n) => toString n
  | .num .nan => "NaN"
  | .str s => s
  | .arr xs => String.intercalate "," (jsToStringElems xs)
  | .obj _ => "[object Object]"

/-- Array elements under `String(...)`: `null`/`undefined` render empty. -/
def jsToStringElems : List JsValue → List String
  | [] => []
  | .null :: xs => "" :: jsToStringElems xs
  | .undefined :: xs => "" :: jsToStringElems xs
  | x :: xs => jsToString x :: jsToStringElems xs
end

/-- Escape of one character inside a JSON string literal. -/
def jsonEscapeChar (c : Char) : String :=
  if c = Char.ofNat 34 then "\\\""
  else if c = Char.ofNat 92 then "\\\\"
  else if c = Char.ofNat 10 then "\\n"
  else String.singleton c

/-- A JSON string literal. -/
def jsonQuote (s : String) : String :=
  "\"" ++ String.join (s.toList.map jsonEscapeChar) ++ "\""

/-- Whether a value is `undefined` (dropped by `JSON.stringify` in objects). -/
def JsValue.isUndefined : JsValue → Bool
  | .undefined => true
  | _ => false

mutual
/-- Compact `JSON.stringify(v)`.  `undefined` appears here only as an array
element, where `JSON.stringify` renders `null`. -/
def jsonStringifyC : JsValue → String
  | .undefined => "null"
  | .null => "null"
  | .bool b => cond b "true" "false"
  | .num (.int n) => toString n
  | .num .nan => "null"
  | .str s => jsonQuote s
  | .arr xs => "[" ++ String.intercalate "," (jsonElemsC xs) ++ "]"
  | .obj fs => "\x7b" ++ String.intercalate "," (jsonFieldsC fs) ++ "\x7d"

def jsonElemsC : List JsValue → List String
  | [] => []
  | x :: xs => jsonStringifyC x :: jsonElemsC xs

def jsonFieldsC : List (String × JsValue) → List String
  | [] => []
  | (_, .undefined) :: fs => jsonFieldsC fs
  | (k, v) :: fs => (jsonQuote k ++ ":" ++ jsonStringifyC v) :: jsonFieldsC fs
end

/-- Spaces of a pretty-printing indent level (2 spaces per level). -/
def indentStr (lvl : Nat) : String := String.mk (List.replicate (2 * lvl) ' ')

mutual
/-- Pretty `JSON.stringify(v, null, 2)` at nesting level `lvl`. -/
def jsonStringifyP (lvl : Nat) : JsValue → String
  | .undefined => "null"
  | .null => "null"
  | .bool b => cond b "true" "false"
  | .num (.int n) => toString n
  | .num .nan => "null"
  | .str s => jsonQuote s
  | .arr xs =>
      let es := jsonElemsP (lvl + 1) xs
      if es.isEmpty then "[]"
      else "[\n" ++ String.intercalate ",\n" es ++ "\n" ++ indentStr lvl ++ "]"
  | .obj fs =>
      let es := jsonFieldsP (lvl + 1) fs
      if es.isEmpty then "\x7b\x7d"
      else "\x7b\n" ++ String.intercalate ",\n" es ++ "\n" ++ indentStr lvl ++ "\x7d"

def jsonElemsP (lvl : Nat) : List JsValue → List String
  | [] => []
  | x :: xs => (indentStr lvl ++ jsonStringifyP lvl x) :: jsonElemsP lvl xs

def jsonFieldsP (lvl : Nat) : List (String × JsValue) → List String
  | [] => []
  | (_, .undefined) :: fs => jsonFieldsP lvl fs
  | (k, v) :: fs =>
      (indentStr lvl ++ jsonQuote k ++ ": " ++ jsonStringifyP lvl v) :: jsonFieldsP lvl fs
end

/-- The line `console.log(JSON.stringify(data, null, 2))` prints: for a
top-level `undefined`, `JSON.stringify` returns `undefined` and `console.log`
renders the word `undefined`. -/
def printJsonLine (v : JsValue) : String :=
  match v with
  | .undefined => "undefined"
  | v => jsonStringifyP 0 v

-- ============================================================
-- src/config.js
-- ============================================================

/-- The persisted settings store: `accessToken` (default `''`) and
`tokenExpiry` (default `0`), as declared in the `conf` schema. -/
structure Settings where
  accessToken : String
  tokenExpiry : JsNum
  deriving Repr, DecidableEq

/-- The schema defaults: empty token, zero expiry. -/
def defaultSettings : Settings := ⟨"", .int 0⟩

/-- `isConfigured()`: `!!accessToken` on the stored (string) token. -/
def isConfigured (s : Settings) : Bool := s.accessToken != ""

/-- JavaScript `>` between a stored number and an integer: false on `NaN`. -/
def jsGtNum : JsNum → Int → Bool
  | .int a, b => decide (a > b)
  | .nan, _ => false

/-- `hasValidToken()`: false without a token, else `tokenExpiry > Date.now() + 60000`. -/
def hasValidToken (s : Settings) (now : Int) : Bool :=
  if s.accessToken == "" then false
  else jsGtNum s.tokenExpiry (now + 60000)

/-- JavaScript `parseInt` on a CLI argument: skip leading whitespace, optional
sign, then a maximal run of decimal digits; `NaN` if no digit follows. -/
def jsParseIntCore (cs : List Char) (neg : Bool) : JsNum :=
  let ds := cs.takeWhile Char.isDigit
  if ds.isEmpty then .nan
  else
    let n : Nat := ds.foldl (fun a c => a * 10 + (c.toNat - 48)) 0
    .int (if neg then -(n : Int) else (n : Int))

def jsParseInt (s : String) : JsNum :=
  match s.toList.dropWhile Char.isWhitespace with
  | '-' :: rest => jsParseIntCore rest true
  | '+' :: rest => jsParseIntCore rest false
  | rest => jsParseIntCore rest false

-- ============================================================
-- src/api.js
-- ============================================================

/-- The errors `api.js` can throw for a command's single request. -/
inductive ApiError where
  | tokenNotConfigured
  | authenticationFailed
  | accessForbidden
  | notFound
  | rateLimited
  | apiGeneric (status : Nat) (message : String)
  | noResponse
  deriving Repr, DecidableEq

/-- The `Error` message text thrown for each error kind. -/
def ApiError.message : ApiError → String
  | .tokenNotConfigured =>
      "Access token not configured. Run: openbankingorgukacco config set --token <token>"
  | .authenticationFailed => "Authentication failed. Check your access token."
  | .accessForbidden => "Access forbidden. Check your API permissions."
  | .notFound => "Resource not found."
  | .rateLimited => "Rate limit exceeded. Please wait before retrying."
  | .apiGeneric status message => "API Error (" ++ toString status ++ "): " ++ message
  | .noResponse => "No response from Open Banking API. Check your internet connection."

/-- `data?.message || data?.error || JSON.stringify(data)`, coerced to text by
the template literal (a top-level `undefined` from `JSON.stringify` renders as
the word `undefined`). -/
def remoteErrorMessage (data : JsValue) : String :=
  let m := jsOptGet data "message"
  if jsTruthy m then jsToString m
  else
    let e := jsOptGet data "error"
    if jsTruthy e then jsToString e
    else
      match data with
      | .undefined => "undefined"
      | d => jsonStringifyC d

/-- `handleApiError` on a response with a status code: classification is by
status alone, with the generic branch carrying the remote message. -/
def handleApiError (status : Nat) (data : JsValue) : ApiError :=
  if status = 401 then .authenticationFailed
  else if status = 403 then .accessForbidden
  else if status = 404 then .notFound
  else if status = 429 then .rateLimited
  else .apiGeneric status (remoteErrorMessage data)

/-- Outcome of the one network exchange a command attempts: a 2xx body, a
non-2xx response with status and body, or no response at all. -/
inductive HttpOutcome where
  | success (body : JsValue)
  | httpError (status : Nat) (data : JsValue)
  | noResponse
  deriving Repr

/-- `apiRequest`: throw before any request when the stored token is empty;
otherwise issue exactly one request (the first component counts requests
actually sent, i.e. reaches of the axios call) and classify its outcome. -/
def apiRequest (s : Settings) (_endpoint : String) (_params : List (String × String))
    (net : HttpOutcome) : Nat × Except ApiError JsValue :=
  if s.accessToken == "" then (0, .error .tokenNotConfigured)
  else
    match net with
    | .success body => (1, .ok body)
    | .httpError status data => (1, .error (handleApiError status data))
    | .noResponse => (1, .error .noResponse)

/-- `a?.[0]`: `undefined` on a nullish receiver, the first element of an
array (or `undefined` when empty), the first character of a string, the `"0"`
property of an object, `undefined` otherwise. -/
def jsOptIndexZero : JsValue → JsValue
  | .null => .undefined
  | .undefined => .undefined
  | .arr [] => .undefined
  | .arr (x :: _) => x
  | .str s => if s.isEmpty then .undefined else .str (String.singleton s.front)
  | .obj fs => (jsLookup fs "0").getD .undefined
  | _ => .undefined

/-- `data.Data?.<name> || []`: the named envelope array (a plain `.Data`
access, so a nullish body throws). -/
def extractListE (body : JsValue) (name : String) : Except String JsValue := do
  let d ← jsGetE body "Data"
  pure (jsOr (jsOptGet d name) (.arr []))

/-- `data.Data?.<name>?.[0] || null`: first element of the named envelope
array for singular lookups. -/
def extractFirstE (body : JsValue) (name : String) : Except String JsValue := do
  let d ← jsGetE body "Data"
  pure (jsOr (jsOptIndexZero (jsOptGet d name)) .null)

-- ============================================================
-- src/index.js: commands
-- ============================================================

/-- Truthiness of a commander option value (`string | undefined`). -/
def optTruthy : Option String → Bool
  | none => false
  | some s => s != ""

/-- Query parameters built by `getAccountTransactions`/`listTransactions`:
`fromBookingDateTime` and `toBookingDateTime`, each attached only when the
corresponding option is truthy. -/
def dateRangeParams (fromDate toDate : Option String) : List (String × String) :=
  (if optTruthy fromDate then [("fromBookingDateTime", fromDate.getD "")] else [])
    ++ (if optTruthy toDate then [("toBookingDateTime", toDate.getD "")] else [])

/-- The sixteen read subcommands of the CLI, with their positional arguments
and (for the two transaction listings) their date-range options. -/
inductive ReadCmd where
  | accountsList
  | accountsGet (accountId : String)
  | accountsBalances (accountId : String)
  | accountsTransactions (accountId : String) (fromDate toDate : Option String)
  | balancesList
  | transactionsList (fromDate toDate : Option String)
  | transactionsGet (accountId transactionId : String)
  | beneficiariesList
  | beneficiariesAccount (accountId : String)
  | directDebitsList
  | directDebitsAccount (accountId : String)
  | standingOrdersList
  | standingOrdersAccount (accountId : String)
  | statementsList (accountId : String)
  | statementsGet (accountId statementId : String)
  | statementsTransactions (accountId statementId : String)
  deriving Repr, DecidableEq

/-- Whether a read subcommand renders a list (via the table printer) rather
than a singular detail view. -/
def ReadCmd.isList : ReadCmd → Bool
  | .accountsGet _ => false
  | .transactionsGet _ _ => false
  | .statementsGet _ _ => false
  | _ => true

/-- The GET endpoint and query parameters each subcommand's API operation
issues. -/
def requestOf : ReadCmd → String × List (String × String)
  | .accountsList => ("/accounts", [])
  | .accountsGet aid => ("/accounts/" ++ aid, [])
  | .accountsBalances aid => ("/accounts/" ++ aid ++ "/balances", [])
  | .accountsTransactions aid f t => ("/accounts/" ++ aid ++ "/transactions", dateRangeParams f t)
  | .balancesList => ("/balances", [])
  | .transactionsList f t => ("/transactions", dateRangeParams f t)
  | .transactionsGet aid tid => ("/accounts/" ++ aid ++ "/transactions/" ++ tid, [])
  | .beneficiariesList => ("/beneficiaries", [])
  | .beneficiariesAccount aid => ("/accounts/" ++ aid ++ "/beneficiaries", [])
  | .directDebitsList => ("/direct-debits", [])
  | .directDebitsAccount aid => ("/accounts/" ++ aid ++ "/direct-debits", [])
  | .standingOrdersList => ("/standing-orders", [])
  | .standingOrdersAccount aid => ("/accounts/" ++ aid ++ "/standing-orders", [])
  | .statementsList aid => ("/accounts/" ++ aid ++ "/statements", [])
  | .statementsGet aid sid => ("/accounts/" ++ aid ++ "/statements/" ++ sid, [])
  | .statementsTransactions aid sid =>
      ("/accounts/" ++ aid ++ "/statements/" ++ sid ++ "/transactions", [])

/-- Envelope unwrapping performed by each subcommand's API operation. -/
def extractOf : ReadCmd → JsValue → Except String JsValue
  | .accountsList, body => extractListE body "Account"
  | .accountsGet _, body => extractFirstE body "Account"
  | .accountsBalances _, body => extractListE body "Balance"
  | .accountsTransactions _ _ _, body => extractListE body "Transaction"
  | .balancesList, body => extractListE body "Balance"
  | .transactionsList _ _, body => extractListE body "Transaction"
  | .transactionsGet _ _, body => extractFirstE body "Transaction"
  | .beneficiariesList, body => extractListE body "Beneficiary"
  | .beneficiariesAccount _, body => extractListE body "Beneficiary"
  | .directDebitsList, body => extractListE body "DirectDebit"
  | .directDebitsAccount _, body => extractListE body "DirectDebit"
  | .standingOrdersList, body => extractListE body "StandingOrder"
  | .standingOrdersAccount _, body => extractListE body "StandingOrder"
  | .statementsList _, body => extractListE body "Statement"
  | .statementsGet _ _, body => extractFirstE body "Statement"
  | .statementsTransactions _ _, body => extractListE body "Transaction"

-- ============================================================
-- src/index.js: rendering
-- ============================================================

/-- `String.prototype.substring(a, b)` for the in-range uses the CLI makes. -/
def strSubstring (s : String) (a b : Nat) : String :=
  String.mk ((s.toList.drop a).take (b - a))

/-- `String.prototype.padEnd(w)` with spaces. -/
def padEnd (s : String) (w : Nat) : String :=
  s ++ String.mk (List.replicate (w - s.length) ' ')

/-- `v?.substring(a, b)`: `undefined` on a nullish receiver, a `TypeError` on
a receiver without that method. -/
def jsOptSubstring (v : JsValue) (a b : Nat) : Except String JsValue :=
  match v with
  | .null => .ok .undefined
  | .undefined => .ok .undefined
  | .str s => .ok (.str (strSubstring s a b))
  | _ => .error "v.substring is not a function"

/-- A table column: result key, header label and optional value formatter
(the formatter may throw, like the `substring` calls in the source). -/
structure Column where
  key : String
  label : String
  format : Option (JsValue → JsValue → Except String JsValue) := none

/-- Formatter `(v, row) => ${v?.Amount || '0.00'} ${v?.Currency || ''}`. -/
def fmtAmountPair : JsValue → JsValue → Except String JsValue := fun v _ =>
  .ok (.str (jsToString (jsOr (jsOptGet v "Amount") (.str "0.00")) ++ " "
      ++ jsToString (jsOr (jsOptGet v "Currency") (.str ""))))

/-- Formatter `(v) => v?.substring(0, 10) + '...'`. -/
def fmtIdTrunc : JsValue → JsValue → Except String JsValue := fun v _ => do
  let t ← jsOptSubstring v 0 10
  pure (.str (jsToString t ++ "..."))

/-- Formatter `(v) => v?.substring(0, 10) || ''`. -/
def fmtDateOnly : JsValue → JsValue → Except String JsValue := fun v _ => do
  let t ← jsOptSubstring v 0 10
  pure (jsOr t (.str ""))

/-- One table cell before width bounding:
`String(col.format ? col.format(row[col.key], row) : (row[col.key] ?? ''))`. -/
def columnValue (c : Column) (row : JsValue) : Except String String := do
  let raw ← jsGetE row c.key
  match c.format with
  | some f => do
      let v ← f raw row
      pure (jsToString v)
  | none => pure (jsToString (jsNullish raw (.str "")))

/-- `data.length === 0` as the empty-check of `printTable` observes it. -/
def jsLengthZero : JsValue → Bool
  | .arr l => l.isEmpty
  | .str s => s.isEmpty
  | .obj fs =>
      match jsLookup fs "length" with
      | some (.num (.int 0)) => true
      | _ => false
  | _ => false

/-- `printTable(data, columns)` as the list of lines it logs: the no-results
notice on an empty input, else header, separator, one bounded row line per
result, and the count footer.  A non-array that passes the empty check throws
on `forEach`; a thrown formatter or a nullish row propagates its error. -/
def printTable (data : JsValue) (cols : List Column) : Except String (List String) :=
  if !jsTruthy data || jsLengthZero data then .ok ["No results found."]
  else
    match data with
    | .arr rows => do
        let colVals ← cols.mapM (fun c => rows.mapM (columnValue c))
        let widths := (cols.zip colVals).map
          (fun p => min (p.2.foldl (fun w v => max w v.length) p.1.label.length) 40)
        let header := String.intercalate "  " ((cols.zip widths).map (fun p => padEnd p.1.label p.2))
        let sep := String.mk (List.replicate header.length '─')
        let rowLines ← rows.mapM (fun row => do
          let cells ← (cols.zip widths).mapM (fun p => do
            let v ← columnValue p.1 row
            pure (padEnd (strSubstring v 0 p.2) p.2))
          pure (String.intercalate "  " cells))
        pure ([header, sep] ++ rowLines ++ ["\n" ++ toString rows.length ++ " result(s)"])
    | _ => .error "data.forEach is not a function"

/-- The column set each list subcommand passes to `printTable`. -/
def columnsOf : ReadCmd → List Column
  | .accountsList =>
      [⟨"AccountId", "ID", none⟩, ⟨"Nickname", "Nickname", none⟩,
       ⟨"Currency", "Currency", none⟩, ⟨"AccountType", "Type", none⟩,
       ⟨"AccountSubType", "SubType", none⟩]
  | .accountsBalances _ =>
      [⟨"Type", "Type", none⟩, ⟨"Amount", "Amount", some fmtAmountPair⟩,
       ⟨"CreditDebitIndicator", "Indicator", none⟩, ⟨"DateTime", "Date Time", none⟩]
  | .accountsTransactions _ _ _ =>
      [⟨"TransactionId", "ID", some fmtIdTrunc⟩, ⟨"BookingDateTime", "Date", some fmtDateOnly⟩,
       ⟨"Amount", "Amount", some fmtAmountPair⟩, ⟨"CreditDebitIndicator", "Type", none⟩,
       ⟨"Status", "Status", none⟩]
  | .balancesList =>
      [⟨"AccountId", "Account ID", none⟩, ⟨"Type", "Type", none⟩,
       ⟨"Amount", "Amount", some fmtAmountPair⟩, ⟨"CreditDebitIndicator", "Indicator", none⟩]
  | .transactionsList _ _ =>
      [⟨"AccountId", "Account", none⟩, ⟨"TransactionId", "ID", some fmtIdTrunc⟩,
       ⟨"BookingDateTime", "Date", some fmtDateOnly⟩, ⟨"Amount", "Amount", some fmtAmountPair⟩,
       ⟨"CreditDebitIndicator", "Type", none⟩]
  | .beneficiariesList =>
      [⟨"AccountId", "Account", none⟩, ⟨"BeneficiaryId", "ID", none⟩,
       ⟨"Reference", "Reference", none⟩]
  | .beneficiariesAccount _ =>
      [⟨"BeneficiaryId", "ID", none⟩, ⟨"Reference", "Reference", none⟩]
  | .directDebitsList =>
      [⟨"AccountId", "Account", none⟩, ⟨"DirectDebitId", "ID", none⟩,
       ⟨"MandateIdentification", "Mandate", none⟩, ⟨"DirectDebitStatusCode", "Status", none⟩]
  | .directDebitsAccount _ =>
      [⟨"DirectDebitId", "ID", none⟩, ⟨"MandateIdentification", "Mandate", none⟩,
       ⟨"DirectDebitStatusCode", "Status", none⟩]
  | .standingOrdersList =>
      [⟨"AccountId", "Account", none⟩, ⟨"StandingOrderId", "ID", none⟩,
       ⟨"Frequency", "Frequency", none⟩, ⟨"Reference", "Reference", none⟩]
  | .standingOrdersAccount _ =>
      [⟨"StandingOrderId", "ID", none⟩, ⟨"Frequency", "Frequency", none⟩,
       ⟨"Reference", "Reference", none⟩]
  | .statementsList _ =>
      [⟨"StatementId", "ID", none⟩, ⟨"Type", "Type", none⟩,
       ⟨"StartDateTime", "Start", some fmtDateOnly⟩, ⟨"EndDateTime", "End", some fmtDateOnly⟩]
  | .statementsTransactions _ _ =>
      [⟨"TransactionId", "ID", some fmtIdTrunc⟩, ⟨"BookingDateTime", "Date", some fmtDateOnly⟩,
       ⟨"Amount", "Amount", some fmtAmountPair⟩, ⟨"CreditDebitIndicator", "Type", none⟩]
  | _ => []

/-- Detail view of `accounts get`: header first, then field lines; the first
plain property read throws on a `null`/`undefined` account. -/
def renderAccountDetails (account : JsValue) (accountId : String) :
    List String × Option String :=
  let header := "\nAccount Details\n"
  match jsGetE account "AccountId" with
  | .error e => ([header], some e)
  | .ok aid =>
      ([header,
        "Account ID:   " ++ jsToString (jsOr aid (.str accountId)),
        "Nickname:     " ++ jsToString (jsOr (jsGet account "Nickname") (.str "N/A")),
        "Currency:     " ++ jsToString (jsOr (jsGet account "Currency") (.str "N/A")),
        "Type:         " ++ jsToString (jsOr (jsGet account "AccountType") (.str "N/A")),
        "SubType:      " ++ jsToString (jsOr (jsGet account "AccountSubType") (.str "N/A"))],
       none)

/-- Detail view of `transactions get`. -/
def renderTransactionDetails (t : JsValue) (accountId transactionId : String) :
    List String × Option String :=
  let header := "\nTransaction Details\n"
  match jsGetE t "TransactionId" with
  | .error e => ([header], some e)
  | .ok tid =>
      ([header,
        "Transaction ID:   " ++ jsToString (jsOr tid (.str transactionId)),
        "Account ID:       " ++ jsToString (jsOr (jsGet t "AccountId") (.str accountId)),
        "Amount:           "
          ++ jsToString (jsOr (jsOptGet (jsGet t "Amount") "Amount") (.str "0.00")) ++ " "
          ++ jsToString (jsOr (jsOptGet (jsGet t "Amount") "Currency") (.str "")),
        "Type:             " ++ jsToString (jsOr (jsGet t "CreditDebitIndicator") (.str "N/A")),
        "Status:           " ++ jsToString (jsOr (jsGet t "Status") (.str "N/A")),
        "Booking Date:     " ++ jsToString (jsOr (jsGet t "BookingDateTime") (.str "N/A"))],
       none)

/-- Detail view of `statements get`. -/
def renderStatementDetails (st : JsValue) (statementId : String) :
    List String × Option String :=
  let header := "\nStatement Details\n"
  match jsGetE st "StatementId" with
  | .error e => ([header], some e)
  | .ok sid =>
      ([header,
        "Statement ID:  " ++ jsToString (jsOr sid (.str statementId)),
        "Type:          " ++ jsToString (jsOr (jsGet st "Type") (.str "N/A")),
        "Start Date:    " ++ jsToString (jsOr (jsGet st "StartDateTime") (.str "N/A")),
        "End Date:      " ++ jsToString (jsOr (jsGet st "EndDateTime") (.str "N/A"))],
       none)

/-- Table-mode rendering of a subcommand's extracted result: lines logged so
far, plus the message of a thrown error when one escapes. -/
def renderOf (r : ReadCmd) (v : JsValue) : List String × Option String :=
  match r with
  | .accountsGet aid => renderAccountDetails v aid
  | .transactionsGet aid tid => renderTransactionDetails v aid tid
  | .statementsGet _ sid => renderStatementDetails v sid
  | r =>
      match printTable v (columnsOf r) with
      | .ok ls => (ls, none)
      | .error e => ([], some e)

-- ============================================================
-- src/index.js: dispatcher
-- ============================================================

/-- Observable outcome of one CLI invocation: process exit code, lines logged
to stdout and stderr, number of network requests issued, and the settings
store as the process leaves it. -/
structure CmdOutcome where
  exitCode : Nat
  stdout : List String
  stderr : List String
  networkCalls : Nat
  settings : Settings
  deriving Repr, DecidableEq

/-- One read subcommand's action: `requireAuth()` (an `isConfigured` check that
prints the guidance and exits 1), then the API call, then either the raw JSON
payload or the table/detail rendering, with any thrown error printed to stderr
followed by `process.exit(1)`. -/
def runRead (r : ReadCmd) (jsonMode : Bool) (s : Settings) (net : HttpOutcome) : CmdOutcome :=
  if isConfigured s then
    let req := requestOf r
    let res := apiRequest s req.1 req.2 net
    match res.2 with
    | .error e => ⟨1, [], ["✗ " ++ e.message], res.1, s⟩
    | .ok body =>
        match extractOf r body with
        | .error e => ⟨1, [], ["✗ " ++ e], res.1, s⟩
        | .ok v =>
            if jsonMode then ⟨0, [printJsonLine v], [], res.1, s⟩
            else
              match renderOf r v with
              | (out, none) => ⟨0, out, [], res.1, s⟩
              | (out, some e) => ⟨1, out, ["✗ " ++ e], res.1, s⟩
  else
    ⟨1, ["\nRun the following to configure:", "  openbankingorgukacco config set --token <token>"],
     ["✗ Access token not configured."], 0, s⟩

/-- `config set`: store the token and/or the parsed expiry when supplied;
print an error (without exiting non-zero — the action never calls
`process.exit`) when neither option is given. -/
def runConfigSet (s : Settings) (token expiry : Option String) : CmdOutcome :=
  let s1 := if optTruthy token then { s with accessToken := token.getD "" } else s
  let s2 := if optTruthy expiry then { s1 with tokenExpiry := jsParseInt (expiry.getD "") } else s1
  { exitCode := 0,
    stdout := (if optTruthy token then ["✓ Access token set"] else [])
      ++ (if optTruthy expiry then ["✓ Token expiry set"] else []),
    stderr := if !optTruthy token && !optTruthy expiry then
        ["✗ No options provided. Use --token or --expiry"]
      else [],
    networkCalls := 0,
    settings := s2 }

/-- `config show`: read-only report of the store; `locale` stands for
`new Date(n).toLocaleString()`. -/
def runConfigShow (s : Settings) (now : Int) (locale : JsNum → String) : CmdOutcome :=
  { exitCode := 0,
    stdout :=
      ["\nOpen Banking UK Account & Transaction CLI Configuration\n",
       "Access Token:  " ++ (if s.accessToken != "" then "set" else "not set")]
      ++ (if jsNumTruthy s.tokenExpiry then
            ["Token Expiry:  " ++ (if jsGtNum s.tokenExpiry now then locale s.tokenExpiry
               else "expired (" ++ locale s.tokenExpiry ++ ")")]
          else [])
      ++ [""],
    stderr := [],
    networkCalls := 0,
    settings := s }

/-- `config clear`: reset the store to its schema defaults. -/
def runConfigClear (_s : Settings) : CmdOutcome :=
  { exitCode := 0, stdout := ["✓ Configuration cleared"], stderr := [],
    networkCalls := 0, settings := (defaultSettings : Settings) }

/-- A CLI invocation: a read subcommand (with its `--json` flag) or one of the
three config subcommands. -/
inductive Cmd where
  | read (r : ReadCmd) (jsonMode : Bool)
  | configSet (token expiry : Option String)
  | configShow
  | configClear

/-- The dispatcher over all subcommands. -/
def runCmd (c : Cmd) (s : Settings) (now : Int) (locale : JsNum → String)
    (net : HttpOutcome) : CmdOutcome :=
  match c with
  | .read r jsonMode => runRead r jsonMode s net
  | .configSet token expiry => runConfigSet s token expiry
  | .configShow => runConfigShow s now locale
  | .configClear => runConfigClear s

-- ============================================================
-- Theorems
-- ============================================================

/-- A configured store has a token that fails the emptiness check of
`apiRequest` and `hasValidToken`. -/
theorem isConfigured_beq_false (s : Settings) (h : isConfigured s = true) :
    (s.accessToken == "") = false := by
  simpa [isConfigured, bne] using h

/-- C4: `isConfigured()` is true iff the stored token is non-empty, and
`hasValidToken()` is true iff the token is non-empty and the stored expiry is
an actual number more than 60000 ms after the current time; in particular a
non-empty token with an expiry in the past makes `hasValidToken` false while
`isConfigured` stays true. -/
theorem c4_token_presence_and_validity (s : Settings) (now : Int) :
    (isConfigured s = true ↔ s.accessToken ≠ "") ∧
    (hasValidToken s now = true ↔
      s.accessToken ≠ "" ∧ ∃ e : Int, s.tokenExpiry = .int e ∧ e > now + 60000) ∧
    (∀ e : Int, s.accessToken ≠ "" → s.tokenExpiry = .int e → e < now →
      hasValidToken s now = false ∧ isConfigured s = true) := by
  refine ⟨by simp [isConfigured], ?_, ?_⟩
  · rcases hb : s.accessToken == "" with _ | _
    · have hne : s.accessToken ≠ "" := by simpa using hb
      rcases he : s.tokenExpiry with e | _
      · simp [hasValidToken, hb, jsGtNum, hne, he]
      · simp [hasValidToken, hb, jsGtNum, hne, he]
    · have heq : s.accessToken = "" := by simpa using hb
      simp [hasValidToken, hb, heq]
  · intro e hne he hlt
    have hb : (s.accessToken == "") = false := by simpa using hne
    constructor
    · simp only [hasValidToken, hb, Bool.false_eq_true, if_false, he, jsGtNum,
        decide_eq_false_iff_not]
      omega
    · simp [isConfigured, hne]

/-- C4 witness: with token `"t"` and expiry 5 ms at current time 100 ms,
`hasValidToken` is false while `isConfigured` is true. -/
theorem c4_witness :
    hasValidToken ⟨"t", .int 5⟩ 100 = false ∧ isConfigured ⟨"t", .int 5⟩ = true :=
  (c4_token_presence_and_validity ⟨"t", .int 5⟩ 100).2.2 5 (by decide) rfl (by decide)

/-- C5: both date-ranged operations attach exactly the `fromBookingDateTime`
and `toBookingDateTime` query parameters the supplied options call for:
both when both are given, only the corresponding one when one is given, and
none when neither is given. -/
theorem c5_date_range_params (aid : String) (f t : Option String) :
    (requestOf (.accountsTransactions aid f t)).2 = dateRangeParams f t ∧
    (requestOf (.transactionsList f t)).2 = dateRangeParams f t ∧
    (∀ vf vt, f = some vf → vf ≠ "" → t = some vt → vt ≠ "" →
      dateRangeParams f t = [("fromBookingDateTime", vf), ("toBookingDateTime", vt)]) ∧
    (∀ vf, f = some vf → vf ≠ "" → optTruthy t = false →
      dateRangeParams f t = [("fromBookingDateTime", vf)]) ∧
    (∀ vt, optTruthy f = false → t = some vt → vt ≠ "" →
      dateRangeParams f t = [("toBookingDateTime", vt)]) ∧
    (optTruthy f = false → optTruthy t = false → dateRangeParams f t = []) := by
  refine ⟨rfl, rfl, ?_, ?_, ?_, ?_⟩
  · intro vf vt hf hvf ht hvt
    subst hf; subst ht
    simp [dateRangeParams, optTruthy, hvf, hvt]
  · intro vf hf hvf ht
    subst hf
    have hvf' : optTruthy (some vf) = true := by simp [optTruthy, hvf]
    simp [dateRangeParams, hvf', ht]
  · intro vt hf ht hvt
    subst ht
    have hvt' : optTruthy (some vt) = true := by simp [optTruthy, hvt]
    simp [dateRangeParams, hvt', hf]
  · intro hf ht
    simp [dateRangeParams, hf, ht]

/-- C5 witness: `--from 2024-01-01 --to 2024-01-31` yields both parameters. -/
theorem c5_witness :
    dateRangeParams (some "2024-01-01") (some "2024-01-31")
      = [("fromBookingDateTime", "2024-01-01"), ("toBookingDateTime", "2024-01-31")] :=
  (c5_date_range_params "a" (some "2024-01-01") (some "2024-01-31")).2.2.1
    "2024-01-01" "2024-01-31" rfl (by decide) rfl (by decide)

/-- C6: HTTP failures are classified solely by status — 401, 403, 404 and 429
map to their dedicated errors, any other status to the generic error carrying
the remote message — the transport failure is a distinct kind that status
classification never produces, and a 429 is surfaced after exactly one request
(no retry) with exit code 1. -/
theorem c6_http_error_classification (st : Nat) (d : JsValue) (r : ReadCmd) (jm : Bool)
    (s : Settings) :
    handleApiError 401 d = .authenticationFailed ∧
    handleApiError 403 d = .accessForbidden ∧
    handleApiError 404 d = .notFound ∧
    handleApiError 429 d = .rateLimited ∧
    (st ≠ 401 → st ≠ 403 → st ≠ 404 → st ≠ 429 →
      handleApiError st d = .apiGeneric st (remoteErrorMessage d)) ∧
    handleApiError st d ≠ .noResponse ∧
    (isConfigured s = true →
      (runRead r jm s (.httpError st d)).stderr = ["✗ " ++ (handleApiError st d).message] ∧
      (runRead r jm s (.httpError st d)).exitCode = 1 ∧
      (runRead r jm s (.httpError st d)).networkCalls = 1 ∧
      (runRead r jm s .noResponse).stderr = ["✗ " ++ ApiError.message .noResponse] ∧
      (runRead r jm s .noResponse).exitCode = 1) := by
  refine ⟨by simp [handleApiError], by simp [handleApiError], by simp [handleApiError],
    by simp [handleApiError], ?_, ?_, ?_⟩
  · intro h1 h2 h3 h4
    simp [handleApiError, h1, h2, h3, h4]
  · unfold handleApiError
    split
    · simp
    · split
      · simp
      · split
        · simp
        · split <;> simp
  · intro hc
    have hbeq := isConfigured_beq_false s hc
    refine ⟨?_, ?_, ?_, ?_, ?_⟩ <;> simp [runRead, apiRequest, hc, hbeq]

/-- C6 witness: a 404 on `accounts list` prints the not-found message and
exits 1. -/
theorem c6_witness :
    (runRead .accountsList false ⟨"tok", .int 0⟩ (.httpError 404 (.obj []))).stderr
      = ["✗ Resource not found."] ∧
    (runRead .accountsList false ⟨"tok", .int 0⟩ (.httpError 404 (.obj []))).exitCode = 1 := by
  have h := c6_http_error_classification 404 (.obj []) .accountsList false ⟨"tok", .int 0⟩
  have h7 := h.2.2.2.2.2.2 rfl
  refine ⟨?_, h7.2.1⟩
  rw [h7.1, h.2.2.1]
  rfl

/-- C1 (amended): the dispatcher's local precondition checks token presence
only — with no configured (non-empty) token every read subcommand exits 1 with
the guidance message and zero network calls; a configured token, even an
expired one, always proceeds to exactly one API request (expiry is not checked
locally). -/
theorem c1_local_precondition (r : ReadCmd) (jm : Bool) (s : Settings) (net : HttpOutcome) :
    (isConfigured s = false →
      (runRead r jm s net).exitCode = 1 ∧
      (runRead r jm s net).networkCalls = 0 ∧
      (runRead r jm s net).stderr = ["✗ Access token not configured."] ∧
      (runRead r jm s net).stdout =
        ["\nRun the following to configure:",
         "  openbankingorgukacco config set --token <token>"]) ∧
    (isConfigured s = true → (runRead r jm s net).networkCalls = 1) := by
  constructor
  · intro h
    refine ⟨?_, ?_, ?_, ?_⟩ <;> simp [runRead, h]
  · intro h
    have hbeq := isConfigured_beq_false s h
    cases net with
    | success body =>
        cases hx : extractOf r body with
        | error e => simp [runRead, apiRequest, h, hbeq, hx]
        | ok v =>
            cases jm with
            | true => simp [runRead, apiRequest, h, hbeq, hx]
            | false =>
                rcases hr : renderOf r v with ⟨out, oe⟩
                cases oe <;> simp [runRead, apiRequest, h, hbeq, hx, hr]
    | httpError st d => simp [runRead, apiRequest, h, hbeq]
    | noResponse => simp [runRead, apiRequest, h, hbeq]

/-- C1 counterexample: a stored token that is present but long expired
(expiry 0 at a current time of 1700000000000 ms) is not valid, yet the
command does not exit with non-zero status and makes a network call — the
dispatcher never consults `hasValidToken`. -/
theorem c1_counterexample :
    hasValidToken ⟨"tok", .int 0⟩ 1700000000000 = false ∧
    (runRead .accountsList false ⟨"tok", .int 0⟩
        (.success (.obj [("Data", .obj [("Account", .arr [])])]))).exitCode = 0 ∧
    (runRead .accountsList false ⟨"tok", .int 0⟩
        (.success (.obj [("Data", .obj [("Account", .arr [])])]))).networkCalls = 1 := by
  refine ⟨by decide, rfl, rfl⟩

/-- C1 witness: with the default (empty) token, `accounts list` exits 1. -/
theorem c1_witness :
    isConfigured defaultSettings = false ∧
    (runRead .accountsList false defaultSettings .noResponse).exitCode = 1 :=
  ⟨rfl, ((c1_local_precondition .accountsList false defaultSettings .noResponse).1 rfl).1⟩

/-- C2 (amended): read subcommands exit 0 on success and 1 on every handled
error (missing auth, API error, network error), but the `config set` action
with neither `--token` nor `--expiry` prints its error message and still
terminates with exit code 0 — it never calls `process.exit(1)`. -/
theorem c2_exit_codes (r : ReadCmd) (jm : Bool) (s : Settings) (st : Nat) (d body v : JsValue) :
    (isConfigured s = false → ∀ net, (runRead r jm s net).exitCode = 1) ∧
    (isConfigured s = true → (runRead r jm s (.httpError st d)).exitCode = 1) ∧
    (isConfigured s = true → (runRead r jm s .noResponse).exitCode = 1) ∧
    (∀ token expiry, (runConfigSet s token expiry).exitCode = 0) ∧
    (runConfigSet s none none).stderr = ["✗ No options provided. Use --token or --expiry"] ∧
    (isConfigured s = true → extractOf r body = .ok v →
      (runRead r true s (.success body)).exitCode = 0) := by
  refine ⟨?_, ?_, ?_, ?_, ?_, ?_⟩
  · intro h net
    simp [runRead, h]
  · intro h
    simp [runRead, apiRequest, h, isConfigured_beq_false s h]
  · intro h
    simp [runRead, apiRequest, h, isConfigured_beq_false s h]
  · intro token expiry
    rfl
  · rfl
  · intro hc he
    simp [runRead, apiRequest, hc, isConfigured_beq_false s hc, he]

/-- C2 counterexample: `config set` with neither option prints the handled
error yet exits with code 0, not 1. -/
theorem c2_counterexample :
    (runCmd (.configSet none none) defaultSettings 0 (fun _ => "") .noResponse).stderr
      = ["✗ No options provided. Use --token or --expiry"] ∧
    (runCmd (.configSet none none) defaultSettings 0 (fun _ => "") .noResponse).exitCode = 0 :=
  ⟨rfl, rfl⟩

/-- C2 witness: the no-option `config set` run exits 0. -/
theorem c2_witness : (runConfigSet defaultSettings none none).exitCode = 0 :=
  (c2_exit_codes .accountsList false defaultSettings 0 .null .null .null).2.2.2.1 none none

/-- C3: with an empty stored token, every read subcommand prints the local
precondition error, exits 1, and issues zero network requests — and the API
client itself would not reach its request-issuing branch either. -/
theorem c3_no_token_no_network (r : ReadCmd) (jm : Bool) (net : HttpOutcome) (s : Settings)
    (h : s.accessToken = "") :
    (runRead r jm s net).exitCode = 1 ∧
    (runRead r jm s net).networkCalls = 0 ∧
    (runRead r jm s net).stderr = ["✗ Access token not configured."] ∧
    (apiRequest s (requestOf r).1 (requestOf r).2 net).1 = 0 := by
  have hc : isConfigured s = false := by simp [isConfigured, h]
  refine ⟨?_, ?_, ?_, ?_⟩ <;> simp [runRead, apiRequest, hc, h]

/-- C3 witness: `accounts list` on the default store makes no network call. -/
theorem c3_witness :
    (runRead .accountsList false defaultSettings .noResponse).networkCalls = 0 :=
  (c3_no_token_no_network .accountsList false .noResponse defaultSettings rfl).2.1

/-- An empty array renders as the single no-results notice whatever the
column set. -/
theorem printTable_empty (cols : List Column) :
    printTable (.arr []) cols = .ok ["No results found."] := by
  simp [printTable, jsTruthy, jsLengthZero]

/-- C7: when the envelope-extracted result of a list subcommand is the empty
array, table mode prints exactly the no-results notice (no header, no rows)
and `--json` mode prints exactly the empty array literal. -/
theorem c7_empty_results (r : ReadCmd) (s : Settings) (body : JsValue)
    (hl : r.isList = true) (hc : isConfigured s = true)
    (he : extractOf r body = .ok (.arr [])) :
    (runRead r false s (.success body)).stdout = ["No results found."] ∧
    (runRead r false s (.success body)).exitCode = 0 ∧
    (runRead r true s (.success body)).stdout = ["[]"] := by
  have hbeq := isConfigured_beq_false s hc
  have hempty : printJsonLine (.arr []) = "[]" := rfl
  refine ⟨?_, ?_, ?_⟩
  · cases r <;>
      simp_all [runRead, apiRequest, renderOf, printTable_empty, ReadCmd.isList]
  · cases r <;>
      simp_all [runRead, apiRequest, renderOf, printTable_empty, ReadCmd.isList]
  · simp [runRead, apiRequest, hc, hbeq, he, hempty]

/-- C7 witness: an empty `Account` envelope under `accounts list`. -/
theorem c7_witness :
    (runRead .accountsList false ⟨"tok", .int 0⟩
        (.success (.obj [("Data", .obj [("Account", .arr [])])]))).stdout
      = ["No results found."] ∧
    (runRead .accountsList true ⟨"tok", .int 0⟩
        (.success (.obj [("Data", .obj [("Account", .arr [])])]))).stdout
      = ["[]"] := by
  have h := c7_empty_results .accountsList ⟨"tok", .int 0⟩
    (.obj [("Data", .obj [("Account", .arr [])])]) rfl rfl rfl
  exact ⟨h.1, h.2.2⟩

/-- C8: in `--json` mode every read subcommand prints exactly the
serialization of the raw envelope-extracted value and exits 0; the extraction
itself is the named array of the `Data` envelope, or its first element (falling
back to `null`) for singular lookups, with no field transformation. -/
theorem c8_json_passthrough (r : ReadCmd) (s : Settings) (body v : JsValue)
    (hc : isConfigured s = true) (he : extractOf r body = .ok v) :
    (runRead r true s (.success body)).stdout = [printJsonLine v] ∧
    (runRead r true s (.success body)).exitCode = 0 ∧
    (∀ name xs, extractListE (.obj [("Data", .obj [(name, .arr xs)])]) name = .ok (.arr xs)) ∧
    (∀ name x xs,
      extractFirstE (.obj [("Data", .obj [(name, .arr (x :: xs))])]) name
        = .ok (jsOr x .null)) := by
  have hbeq := isConfigured_beq_false s hc
  refine ⟨?_, ?_, ?_, ?_⟩
  · simp [runRead, apiRequest, hc, hbeq, he]
  · simp [runRead, apiRequest, hc, hbeq, he]
  · intro name xs
    simp [extractListE, jsGetE, jsGet, jsLookup, jsOptGet, jsOr, jsTruthy]
  · intro name x xs
    simp [extractFirstE, jsGetE, jsGet, jsLookup, jsOptGet, jsOptIndexZero]

/-- C8 witness: a one-account envelope passes through `--json` unchanged. -/
theorem c8_witness :
    (runRead .accountsList true ⟨"tok", .int 0⟩
        (.success (.obj [("Data",
          .obj [("Account", .arr [.obj [("AccountId", .str "a1")]])])]))).stdout
      = [printJsonLine (.arr [.obj [("AccountId", .str "a1")]])] :=
  (c8_json_passthrough .accountsList ⟨"tok", .int 0⟩
    (.obj [("Data", .obj [("Account", .arr [.obj [("AccountId", .str "a1")]])])])
    (.arr [.obj [("AccountId", .str "a1")]]) rfl rfl).1

/-- C9: read subcommands and `config show` leave the settings store exactly
as they found it — only `config set` and `config clear` mutate it (`clear`
resets the store to its schema defaults). -/
theorem c9_read_only_frame (r : ReadCmd) (jm : Bool) (s : Settings) (now : Int)
    (locale : JsNum → String) (net : HttpOutcome) :
    (runCmd (.read r jm) s now locale net).settings = s ∧
    (runCmd .configShow s now locale net).settings = s ∧
    (runCmd .configClear s now locale net).settings = defaultSettings := by
  refine ⟨?_, rfl, rfl⟩
  show (runRead r jm s net).settings = s
  unfold runRead
  dsimp only
  split
  · split
    · rfl
    · split
      · rfl
      · split
        · rfl
        · split <;> rfl
  · rfl

/-- C10: a singular get whose extraction is `null` (no matching envelope
element) prints the literal `null` and exits 0 under `--json`, while in table
mode the renderer's first property read throws, the error is caught and
printed to stderr, and the process exits 1. -/
theorem c10_null_singular_get (aid tid sid : String) (s : Settings) (b1 b2 b3 : JsValue)
    (hc : isConfigured s = true)
    (h1 : extractOf (.accountsGet aid) b1 = .ok .null)
    (h2 : extractOf (.transactionsGet aid tid) b2 = .ok .null)
    (h3 : extractOf (.statementsGet aid sid) b3 = .ok .null) :
    ((runRead (.accountsGet aid) true s (.success b1)).stdout = ["null"] ∧
     (runRead (.accountsGet aid) true s (.success b1)).exitCode = 0 ∧
     (runRead (.accountsGet aid) false s (.success b1)).exitCode = 1 ∧
     (runRead (.accountsGet aid) false s (.success b1)).stderr
       = ["✗ " ++ readErrMsg "null" "AccountId"]) ∧
    ((runRead (.transactionsGet aid tid) true s (.success b2)).stdout = ["null"] ∧
     (runRead (.transactionsGet aid tid) true s (.success b2)).exitCode = 0 ∧
     (runRead (.transactionsGet aid tid) false s (.success b2)).exitCode = 1 ∧
     (runRead (.transactionsGet aid tid) false s (.success b2)).stderr
       = ["✗ " ++ readErrMsg "null" "TransactionId"]) ∧
    ((runRead (.statementsGet aid sid) true s (.success b3)).stdout = ["null"] ∧
     (runRead (.statementsGet aid sid) true s (.success b3)).exitCode = 0 ∧
     (runRead (.statementsGet aid sid) false s (.success b3)).exitCode = 1 ∧
     (runRead (.statementsGet aid sid) false s (.success b3)).stderr
       = ["✗ " ++ readErrMsg "null" "StatementId"]) := by
  have hbeq := isConfigured_beq_false s hc
  have hnull : printJsonLine .null = "null" := rfl
  refine ⟨⟨?_, ?_, ?_, ?_⟩, ⟨?_, ?_, ?_, ?_⟩, ⟨?_, ?_, ?_, ?_⟩⟩ <;>
    simp [runRead, apiRequest, hc, hbeq, h1, h2, h3, renderOf, renderAccountDetails,
      renderTransactionDetails, renderStatementDetails, jsGetE, hnull]

/-- C10 witness: an empty `Account` array under `accounts get` prints `null`
in `--json` mode and exits 1 in table mode. -/
theorem c10_witness :
    (runRead (.accountsGet "a") true ⟨"tok", .int 0⟩
        (.success (.obj [("Data", .obj [("Account", .arr [])])]))).stdout = ["null"] ∧
    (runRead (.accountsGet "a") false ⟨"tok", .int 0⟩
        (.success (.obj [("Data", .obj [("Account", .arr [])])]))).exitCode = 1 := by
  have h := c10_null_singular_get "a" "t" "st" ⟨"tok", .int 0⟩
    (.obj [("Data", .obj [("Account", .arr [])])])
    (.obj [("Data", .obj [("Transaction", .arr [])])])
    (.obj [("Data", .obj [("Statement", .arr [])])])
    rfl rfl rfl rfl
  exact ⟨h.1.1, h.1.2.2.1⟩

end OBA
